import Mathlib

/-!
Verification of the drone-s3-cache plugin (src/main.go) against its
natural-language specification.

The development shallow-embeds the Go source: the CLI flag table of `main`,
the `run` action, `s3Storage`, and `isMultipleModes` are translated to pure
Lean functions.  The parts of the repository that `main.go` calls but that
are not in the inspected source (the `Plugin.Exec` restore path and the
retention sweeper) are modelled from the specification and clearly marked.

Conventions:
- A process exit code of 0 corresponds to an `Except.ok` result; a non-zero
  exit with a message corresponds to `Except.error msg`.
- Go's `len(s) == 0` on strings is `String.isEmpty`.
-/

namespace DroneS3Cache

/-- An invocation of the plugin: the externally supplied configuration.
`stringOpts` holds the string settings by flag name (as bound from the
`PLUGIN_*` / `DRONE_*` environment by the CLI library); `mount` is the
repeatable `mount` string-slice flag; the three booleans are the mode
flags `rebuild`, `restore` and `flush`. -/
structure Invocation where
  stringOpts : List (String × String)
  mount : List String
  rebuild : Bool
  restore : Bool
  flush : Bool

/-- The string flags registered in `main`'s `app.Flags` (src/main.go lines
24-111): `filename`, `path`, `fallback_path`, `flush_age`, `repo.owner`,
`repo.name`, `commit.branch`, `server`, `access-key`, `secret-key`.
Note that no `flush_path` flag is registered. -/
def registeredStringFlags : List String :=
  ["filename", "path", "fallback_path", "flush_age",
   "repo.owner", "repo.name", "commit.branch",
   "server", "access-key", "secret-key"]

/-- Defaults declared in the flag table: `commit.branch` defaults to
"master" and `flush_age` defaults to "30"; every other flag defaults to
the empty string. -/
def flagDefault : String → String
  | "commit.branch" => "master"
  | "flush_age" => "30"
  | _ => ""

/-- Semantics of `c.String` / `c.GlobalString` of the CLI library for an
app-level action: a registered flag resolves to the supplied value, or to
its declared default when not supplied; looking up a flag name that was
never registered yields the empty string. -/
def cString (c : Invocation) (name : String) : String :=
  if registeredStringFlags.contains name then
    match c.stringOpts.lookup name with
    | some v => v
    | none => flagDefault name
  else ""

/-- src/main.go `isMultipleModes` loop body: `b` is the accumulator
("a true has already been seen"); returning true when a second true is
encountered. -/
def imLoop : Bool → List Bool → Bool
  | _, [] => false
  | b, v :: rest =>
    if b && (b == v) then true
    else imLoop (if v then true else b) rest

/-- src/main.go lines 271-284: `isMultipleModes(bools ...bool) bool`. -/
def isMultipleModes (bools : List Bool) : Bool :=
  imLoop false bools

/-- Path defaulting of `run` (src/main.go lines 153-194): each of the three
paths is used verbatim when non-empty, else built by `fmt.Sprintf` from
owner/repo/branch. -/
def resolvePaths (explicitPath explicitFallback explicitFlushPrefix owner repo branch : String) :
    String × String × String :=
  let path :=
    if explicitPath.isEmpty then "/" ++ owner ++ "/" ++ repo ++ "/" ++ branch ++ "/"
    else explicitPath
  let fallbackPath :=
    if explicitFallback.isEmpty then "/" ++ owner ++ "/" ++ repo ++ "/master/"
    else explicitFallback
  let flushPath :=
    if explicitFlushPrefix.isEmpty then "/" ++ owner ++ "/" ++ repo ++ "/"
    else explicitFlushPrefix
  (path, fallbackPath, flushPath)

/-- Go `strconv.Atoi` digit accumulation: `none` means no digit consumed yet
or an invalid character was hit (signalled by returning `none` at the end
only when no digits were read; an invalid character aborts the whole parse). -/
def parseDigits : Option Nat → List Char → Option Nat
  | acc, [] => acc
  | acc, ch :: rest =>
    if ch.isDigit then
      match acc with
      | none => parseDigits (some (ch.toNat - 48)) rest
      | some n => parseDigits (some (n * 10 + (ch.toNat - 48))) rest
    else none

/-- Semantics of Go `strconv.Atoi` (base 10, 64-bit int): an optional sign
followed by at least one digit; anything else is a syntax error; a value
outside the int64 range is a range error.  Error messages follow Go's
`*strconv.NumError` rendering. -/
def atoi (s : String) : Except String Int :=
  let (neg, digits) :=
    match s.data with
    | '-' :: rest => (true, rest)
    | '+' :: rest => (false, rest)
    | cs => (false, cs)
  match parseDigits none digits with
  | none => .error ("strconv.Atoi: parsing \"" ++ s ++ "\": invalid syntax")
  | some n =>
    let v : Int := if neg then -(n : Int) else (n : Int)
    if v < -(2 ^ 63) || 2 ^ 63 - 1 < v then
      .error ("strconv.Atoi: parsing \"" ++ s ++ "\": value out of range")
    else .ok v

/-- The `s3.Options` struct handed to the storage constructor
(src/main.go lines 263-268). -/
structure S3Options where
  Endpoint : String
  Access : String
  Secret : String
  UseSSL : Bool
deriving DecidableEq

/-- Credential check and construction at the tail of `s3Storage`
(src/main.go lines 255-268). -/
def s3Creds (c : Invocation) (endpoint : String) (useSSL : Bool) :
    Except String S3Options :=
  let access := cString c "access-key"
  let secret := cString c "secret-key"
  if access.isEmpty || secret.isEmpty then
    .error "No access credentials provided"
  else
    .ok { Endpoint := endpoint, Access := access, Secret := secret, UseSSL := useSSL }

/-- Go `strings.HasPrefix(s, pre)`, character by character. -/
def hasPrefix (s pre : String) : Bool :=
  pre.data.isPrefixOf s.data

/-- Go string slicing `s[n:]`: dropping the first `n` characters agrees
with dropping `n` bytes here because the dropped prefixes are ASCII. -/
def strDrop (s : String) (n : Nat) : String :=
  ⟨s.data.drop n⟩

/-- src/main.go lines 231-269: `s3Storage`.  The server option, when
non-empty, must start with "https://" (SSL, endpoint is the rest) or
"http://" (no SSL, endpoint is the rest); otherwise construction fails.
An empty server defaults to "s3.amazonaws.com" with SSL. -/
def s3Storage (c : Invocation) : Except String S3Options :=
  let server := cString c "server"
  if !server.isEmpty then
    let useSSL := hasPrefix server "https://"
    if !useSSL then
      if !(hasPrefix server "http://") then
        .error ("Invalid server " ++ server ++ ". Needs to be a HTTP URI")
      else
        s3Creds c (strDrop server 7) false
    else
      s3Creds c (strDrop server 8) true
  else
    s3Creds c "s3.amazonaws.com" true

/-- Mode name constants.  They are referenced by `run` but declared in a
repository file outside the inspected source; modelled from the spec's
three mode names. -/
def RebuildMode : String := "rebuild"

/-- Restore mode name constant (see `RebuildMode`). -/
def RestoreMode : String := "restore"

/-- Flush mode name constant (see `RebuildMode`). -/
def FlushMode : String := "flush"

/-- The `Plugin` struct populated at the end of `run`
(src/main.go lines 217-226). -/
structure Plugin where
  Filename : String
  Path : String
  FallbackPath : String
  FlushPath : String
  Mode : String
  FlushAge : Int
  Mount : List String
  Storage : S3Options
deriving DecidableEq

/-- Outcome of `run` together with the observation whether control reached
the `s3Storage` constructor call: `storageConstructed` is false exactly when
`run` returned on one of the early validation errors that precede the
`s3Storage(c)` call in the source. -/
structure RunTrace where
  result : Except String Plugin
  storageConstructed : Bool

/-- True when the invocation terminates with a non-zero exit (an error
before `p.Exec()` is ever reached). -/
def RunTrace.failed (t : RunTrace) : Bool :=
  match t.result with
  | .error _ => true
  | .ok _ => false

/-- src/main.go lines 118-229: the `run` action.  Mode validation comes
first, then the mount check for rebuild, then path/filename defaulting,
then `s3Storage`, then `strconv.Atoi` on `flush_age`, and finally the
`Plugin` is built (its `Exec` is outside the inspected source, so an
`Except.ok` result carries the plugin that would be executed).  The Go
`if rebuild { mount = ...; if len(mount) == 0 ... } else if flush ...`
ladder is flattened: the mount error fires iff rebuild is the mode and the
mount list is empty, and `mount` stays nil outside rebuild. -/
def run (c : Invocation) : RunTrace :=
  if isMultipleModes [c.rebuild, c.restore, c.flush] then
    { result := .error "Must use a single mode: rebuild, restore or flush"
      storageConstructed := false }
  else if !c.rebuild && !c.restore && !c.flush then
    { result := .error "No action specified", storageConstructed := false }
  else if c.rebuild && c.mount.isEmpty then
    { result := .error "No mounts specified", storageConstructed := false }
  else
    let mode := if c.rebuild then RebuildMode else if c.flush then FlushMode else RestoreMode
    let mount := if c.rebuild then c.mount else []
    let paths := resolvePaths (cString c "path") (cString c "fallback_path")
      (cString c "flush_path") (cString c "repo.owner") (cString c "repo.name")
      (cString c "commit.branch")
    let filename := if (cString c "filename").isEmpty then "archive.tar" else cString c "filename"
    match s3Storage c with
    | .error e => { result := .error e, storageConstructed := true }
    | .ok s =>
      match atoi (cString c "flush_age") with
      | .error e => { result := .error e, storageConstructed := true }
      | .ok flushAge =>
        { result := .ok
            { Filename := filename, Path := paths.1, FallbackPath := paths.2.1
              FlushPath := paths.2.2, Mode := mode, FlushAge := flushAge
              Mount := mount, Storage := s }
          storageConstructed := true }

/-! Spec-modelled collaborators.  The restore path and the retention sweeper
live in `Plugin.Exec` and its helpers, repository code that is not part of
the inspected source (only `main.go` is); they are modelled from the spec. -/

/-- Payload of a stored object, an opaque byte blob. -/
abbrev Payload := List Nat

/-- Modelled from the spec: the result of `StorageClient.get(key)` —
`found=false` is not an error; a transport/auth failure is distinct from
"not present". -/
inductive GetResult where
  | found (payload : Payload)
  | notFound
  | transportError (msg : String)

/-- Modelled from the spec (§4.4 Restore, missing from src/): get the
primary key `path+filename`; on `found=false` fall back to
`fallbackPath+filename`; if that too is absent, succeed with zero files
restored; on a hit run the extractor (failure fatal); a transport error is
fatal.  `Except.ok files` is a success exit (code 0) listing the restored
files. -/
def restoreOp (get : String → GetResult) (extract : Payload → Except String (List String))
    (path fallbackPath filename : String) : Except String (List String) :=
  match get (path ++ filename) with
  | .found payload => extract payload
  | .transportError e => .error e
  | .notFound =>
    match get (fallbackPath ++ filename) with
    | .found payload => extract payload
    | .transportError e => .error e
    | .notFound => .ok []

/-- Modelled from the spec: `StorageClient.list(prefix)` enumerates the
stored objects — `(key, lastModified)` pairs, timestamps in days — whose
key has the given prefix. -/
def listPrefix (objects : List (String × Int)) (pfx : String) : List (String × Int) :=
  objects.filter (fun o => pfx.isPrefixOf o.1)

/-- Modelled from the spec (§4.5 RetentionSweeper, missing from src/): the
keys deleted by `sweep(prefix, maxAgeDays)` — every listed object whose age
`now - lastModified` strictly exceeds `maxAgeDays` is deleted. -/
def sweepDeleted (objects : List (String × Int)) (pfx : String) (now maxAgeDays : Int) :
    List String :=
  ((listPrefix objects pfx).filter (fun o => decide (maxAgeDays < now - o.2))).map (fun o => o.1)

/-! Helper lemmas. -/

/-- A non-empty string has positive length. -/
theorem isEmpty_false_of_ne (s : String) (h : s ≠ "") : s.isEmpty = false := by
  cases hem : s.isEmpty
  · rfl
  · exact absurd ((String.isEmpty_iff s).mp hem) h

/-- The empty string is empty. -/
theorem empty_string_isEmpty : "".isEmpty = true := rfl

/-- Whenever `s3Storage` fails, `run` terminates with an error (the plugin
is never executed), whichever validation branch is taken. -/
theorem run_failed_of_s3_error (c : Invocation) (e : String)
    (hs : s3Storage c = .error e) : (run c).failed = true := by
  unfold run
  split
  · rfl
  · split
    · rfl
    · split
      · rfl
      · simp only [hs, RunTrace.failed]

/-- The accumulator-true loop succeeds exactly when some element is true. -/
theorem imLoop_true_iff (l : List Bool) : imLoop true l = true ↔ 0 < l.count true := by
  induction l with
  | nil => simp [imLoop]
  | cons v rest ih =>
    cases v <;> simp [imLoop, List.count_cons, ih]

/-! Concrete invocations used by witnesses and counterexamples. -/

/-- Concrete invocation with two mode flags set. -/
def cfgBothModes : Invocation :=
  { stringOpts := [], mount := [], rebuild := true, restore := true, flush := false }

/-- Concrete invocation with no mode flag set. -/
def cfgNoModes : Invocation :=
  { stringOpts := [], mount := [], rebuild := false, restore := false, flush := false }

/-- Concrete invocation selecting rebuild with an empty mount list. -/
def cfgRebuildNoMounts : Invocation :=
  { stringOpts := [], mount := [], rebuild := true, restore := false, flush := false }

/-- A storage content function with no objects at all. -/
def emptyStore : String → GetResult := fun _ => GetResult.notFound

/-- A trivial extractor, used only to instantiate the restore theorem. -/
def noopExtract : Payload → Except String (List String) := fun _ => Except.ok []

/-! Claim theorems. -/

/-- C9: `isMultipleModes` returns true iff at least two elements of the
list are true; in particular it is false on the empty list and on any list
with exactly one true element. -/
theorem isMultipleModes_iff_two_true (l : List Bool) :
    isMultipleModes l = true ↔ 2 ≤ l.count true := by
  unfold isMultipleModes
  induction l with
  | nil => simp [imLoop]
  | cons v rest ih =>
    cases v
    · simpa [imLoop, List.count_cons] using ih
    · have h2 : imLoop false (true :: rest) = imLoop true rest := by simp [imLoop]
      rw [h2, imLoop_true_iff, List.count_cons]
      simp

/-- C1: with empty explicit path, fallback path and flush prefix and
non-empty owner, repo and branch, path resolution yields exactly
`("/owner/repo/branch/", "/owner/repo/master/", "/owner/repo/")`, with the
literal "master" in the fallback regardless of the branch. -/
theorem resolvePaths_default_triple (owner repo branch : String)
    (_ho : owner ≠ "") (_hr : repo ≠ "") (_hb : branch ≠ "") :
    resolvePaths "" "" "" owner repo branch =
      ("/" ++ owner ++ "/" ++ repo ++ "/" ++ branch ++ "/",
       "/" ++ owner ++ "/" ++ repo ++ "/master/",
       "/" ++ owner ++ "/" ++ repo ++ "/") := rfl

/-- C1 witness: the default triple at owner "acme", repo "widget",
branch "feature-x". -/
theorem resolvePaths_default_triple_witness :
    ("acme" ≠ "" ∧ "widget" ≠ "" ∧ "feature-x" ≠ "") ∧
    resolvePaths "" "" "" "acme" "widget" "feature-x" =
      ("/acme/widget/feature-x/", "/acme/widget/master/", "/acme/widget/") :=
  ⟨⟨by decide, by decide, by decide⟩,
   resolvePaths_default_triple "acme" "widget" "feature-x"
     (by decide) (by decide) (by decide)⟩

/-- C2: selecting more than one of rebuild/restore/flush fails with the
mode-conflict error, and selecting none fails with "No action specified";
in both cases `storageConstructed = false`: the failure happens before the
storage client is constructed (hence before any storage operation). -/
theorem run_mode_validation (c : Invocation) :
    (isMultipleModes [c.rebuild, c.restore, c.flush] = true →
      run c = { result := .error "Must use a single mode: rebuild, restore or flush",
                storageConstructed := false })
    ∧ (c.rebuild = false → c.restore = false → c.flush = false →
      run c = { result := .error "No action specified", storageConstructed := false }) := by
  constructor
  · intro h
    simp [run, h]
  · intro h1 h2 h3
    simp [run, h1, h2, h3, isMultipleModes, imLoop]

/-- C2 witness: both failure shapes at concrete invocations. -/
theorem run_mode_validation_witness :
    (isMultipleModes [cfgBothModes.rebuild, cfgBothModes.restore, cfgBothModes.flush] = true ∧
      run cfgBothModes = { result := .error "Must use a single mode: rebuild, restore or flush",
                           storageConstructed := false }) ∧
    run cfgNoModes = { result := .error "No action specified", storageConstructed := false } :=
  ⟨⟨by decide, (run_mode_validation cfgBothModes).1 (by decide)⟩,
   (run_mode_validation cfgNoModes).2 rfl rfl rfl⟩

/-- C3: rebuild mode with an empty mount list fails with
"No mounts specified", with `storageConstructed = false`: before the
storage client is constructed, hence with no storage writes. -/
theorem run_rebuild_no_mounts (c : Invocation)
    (hreb : c.rebuild = true) (hres : c.restore = false) (hfl : c.flush = false)
    (hm : c.mount = []) :
    run c = { result := .error "No mounts specified", storageConstructed := false } := by
  simp [run, hreb, hres, hfl, hm, isMultipleModes, imLoop]

/-- C3 witness: the failure at a concrete rebuild invocation. -/
theorem run_rebuild_no_mounts_witness :
    (cfgRebuildNoMounts.rebuild = true ∧ cfgRebuildNoMounts.mount = []) ∧
    run cfgRebuildNoMounts =
      { result := .error "No mounts specified", storageConstructed := false } :=
  ⟨⟨rfl, rfl⟩, run_rebuild_no_mounts cfgRebuildNoMounts rfl rfl rfl rfl⟩

/-- C4: when both the primary and the fallback keys are absent (not found,
no transport error), restore completes successfully (exit 0, `Except.ok`)
with zero files restored; absence is never surfaced as an error. -/
theorem restoreOp_both_absent (get : String → GetResult)
    (extract : Payload → Except String (List String)) (path fallbackPath filename : String)
    (h1 : get (path ++ filename) = GetResult.notFound)
    (h2 : get (fallbackPath ++ filename) = GetResult.notFound) :
    restoreOp get extract path fallbackPath filename = .ok [] := by
  simp [restoreOp, h1, h2]

/-- C4 witness: restore against an empty store succeeds with no files. -/
theorem restoreOp_both_absent_witness :
    (emptyStore ("/acme/widget/main/" ++ "archive.tar") = GetResult.notFound ∧
     emptyStore ("/acme/widget/master/" ++ "archive.tar") = GetResult.notFound) ∧
    restoreOp emptyStore noopExtract "/acme/widget/main/" "/acme/widget/master/" "archive.tar" =
      .ok [] :=
  ⟨⟨rfl, rfl⟩,
   restoreOp_both_absent emptyStore noopExtract "/acme/widget/main/" "/acme/widget/master/"
     "archive.tar" rfl rfl⟩

/-- C5: the keys deleted by a flush sweep are exactly the stored objects
under the flush prefix whose age `now - lastModified` strictly exceeds
`maxAgeDays`; an object whose age equals the threshold is retained (the
comparison is strict). -/
theorem sweepDeleted_iff (objects : List (String × Int)) (pfx : String)
    (now maxAgeDays : Int) (key : String) :
    key ∈ sweepDeleted objects pfx now maxAgeDays ↔
      ∃ lm : Int, (key, lm) ∈ objects ∧ pfx.isPrefixOf key = true ∧ maxAgeDays < now - lm := by
  constructor
  · intro hmem
    rcases List.mem_map.mp hmem with ⟨o, ho, hkey⟩
    rcases List.mem_filter.mp ho with ⟨ho1, hage⟩
    rcases List.mem_filter.mp ho1 with ⟨hobj, hp⟩
    rcases o with ⟨k, lm⟩
    cases hkey
    exact ⟨lm, hobj, hp, of_decide_eq_true hage⟩
  · rintro ⟨lm, hobj, hp, hage⟩
    exact List.mem_map.mpr ⟨(key, lm),
      List.mem_filter.mpr ⟨List.mem_filter.mpr ⟨hobj, hp⟩, decide_eq_true hage⟩, rfl⟩

/-- Concrete invocation with empty owner and repo, restore mode, all paths
left to default. -/
def cfgEmptyOwner : Invocation :=
  { stringOpts := [("access-key", "AK"), ("secret-key", "SK")],
    mount := [], rebuild := false, restore := true, flush := false }

/-- Concrete flush invocation that supplies a non-empty `flush_path`. -/
def cfgFlushPath : Invocation :=
  { stringOpts := [("flush_path", "/custom/"), ("repo.owner", "octocat"),
                   ("repo.name", "demo"), ("access-key", "AK"), ("secret-key", "SK")],
    mount := [], rebuild := false, restore := false, flush := true }

/-- Concrete invocation with a negative `flush_age`. -/
def cfgNegAge : Invocation :=
  { stringOpts := [("flush_age", "-5"), ("repo.owner", "octocat"), ("repo.name", "demo"),
                   ("access-key", "AK"), ("secret-key", "SK")],
    mount := [], rebuild := false, restore := true, flush := false }

/-- Concrete invocation with a non-numeric `flush_age`. -/
def cfgBadAge : Invocation :=
  { stringOpts := [("flush_age", "abc"), ("access-key", "AK"), ("secret-key", "SK")],
    mount := [], rebuild := false, restore := true, flush := false }

/-- Concrete invocation whose server is neither an http nor an https URI. -/
def cfgBadServer : Invocation :=
  { stringOpts := [("server", "ftp://files.example.com"),
                   ("access-key", "AK"), ("secret-key", "SK")],
    mount := [], rebuild := false, restore := true, flush := false }

/-- Concrete invocation with no server option set. -/
def cfgNoServer : Invocation :=
  { stringOpts := [("access-key", "AK"), ("secret-key", "SK")],
    mount := [], rebuild := false, restore := true, flush := false }

/-- C6 counterexample: owner and repo are both empty and all three paths
need defaulting, yet the invocation does not fail with a ConfigError — it
proceeds all the way to a successfully constructed plugin whose paths are
built from the empty components. -/
theorem run_empty_owner_proceeds :
    (cString cfgEmptyOwner "repo.owner" = "" ∧ cString cfgEmptyOwner "repo.name" = "") ∧
    (run cfgEmptyOwner).result = Except.ok
      { Filename := "archive.tar", Path := "///master/", FallbackPath := "///master/",
        FlushPath := "///", Mode := RestoreMode, FlushAge := 30, Mount := [],
        Storage := { Endpoint := "s3.amazonaws.com", Access := "AK",
                     Secret := "SK", UseSSL := true } } :=
  ⟨⟨rfl, rfl⟩, rfl⟩

/-- C6 (amended): when owner or repo is empty and the paths need
defaulting, resolution does not fail; it yields the default paths with the
empty components interpolated (consecutive separators), and the invocation
proceeds. -/
theorem resolvePaths_empty_components (owner repo branch : String)
    (_h : owner = "" ∨ repo = "") :
    resolvePaths "" "" "" owner repo branch =
      ("/" ++ owner ++ "/" ++ repo ++ "/" ++ branch ++ "/",
       "/" ++ owner ++ "/" ++ repo ++ "/master/",
       "/" ++ owner ++ "/" ++ repo ++ "/") := rfl

/-- C6 (amended) witness: empty owner, non-empty repo. -/
theorem resolvePaths_empty_components_witness :
    ("" = "" ∨ "widget" = "") ∧
    resolvePaths "" "" "" "" "widget" "main" =
      ("//widget/main/", "//widget/master/", "//widget/") :=
  ⟨Or.inl rfl, resolvePaths_empty_components "" "widget" "main" (Or.inl rfl)⟩

/-- C7: `flush_path` is not an externally suppliable option: `main` never
registers a `flush_path` flag, so the CLI lookup of `flush_path` yields ""
even when the invocation supplies "/custom/", and the plugin is built with
the default flush prefix "/octocat/demo/" instead of the supplied value. -/
theorem flush_path_setting_ignored :
    (registeredStringFlags.contains "flush_path" = false ∧
     cfgFlushPath.stringOpts.lookup "flush_path" = some "/custom/" ∧
     cString cfgFlushPath "flush_path" = "") ∧
    (run cfgFlushPath).result = Except.ok
      { Filename := "archive.tar", Path := "/octocat/demo/master/",
        FallbackPath := "/octocat/demo/master/", FlushPath := "/octocat/demo/",
        Mode := FlushMode, FlushAge := 30, Mount := [],
        Storage := { Endpoint := "s3.amazonaws.com", Access := "AK",
                     Secret := "SK", UseSSL := true } } :=
  ⟨⟨rfl, rfl, rfl⟩, rfl⟩

/-- C8 counterexample: a negative `flush_age` of "-5" is not rejected —
`strconv.Atoi` parses it and the plugin is built with `FlushAge = -5`. -/
theorem run_negative_flush_age_accepted :
    (cString cfgNegAge "flush_age" = "-5" ∧ atoi "-5" = .ok (-5)) ∧
    (run cfgNegAge).result = Except.ok
      { Filename := "archive.tar", Path := "/octocat/demo/master/",
        FallbackPath := "/octocat/demo/master/", FlushPath := "/octocat/demo/",
        Mode := RestoreMode, FlushAge := -5, Mount := [],
        Storage := { Endpoint := "s3.amazonaws.com", Access := "AK",
                     Secret := "SK", UseSSL := true } } :=
  ⟨⟨rfl, rfl⟩, rfl⟩

/-- C8 (amended): `flush_age` must parse as a base-10 integer; input that
does not parse (non-numeric) is rejected with the parse error before the
plugin executes — negative integers, however, are accepted.  The parse
happens after the storage client is constructed (`storageConstructed` is
true) but before any storage operation, since `Plugin.Exec` is never
reached. -/
theorem run_flush_age_parse_error (c : Invocation) (s : S3Options) (e : String)
    (hmode : isMultipleModes [c.rebuild, c.restore, c.flush] = false)
    (hsome : (c.rebuild || c.restore || c.flush) = true)
    (hmount : c.rebuild = true → c.mount.isEmpty = false)
    (hs : s3Storage c = .ok s)
    (ha : atoi (cString c "flush_age") = .error e) :
    run c = { result := .error e, storageConstructed := true } := by
  rcases c with ⟨opts, mount, rb, rs, fl⟩
  cases rb <;> cases rs <;> cases fl <;> simp_all [run]

/-- C8 (amended) witness: a non-numeric `flush_age` is rejected with the
Atoi syntax error. -/
theorem run_flush_age_parse_error_witness :
    atoi (cString cfgBadAge "flush_age") =
      .error "strconv.Atoi: parsing \"abc\": invalid syntax" ∧
    run cfgBadAge =
      { result := .error "strconv.Atoi: parsing \"abc\": invalid syntax",
        storageConstructed := true } :=
  ⟨rfl,
   run_flush_age_parse_error cfgBadAge
     { Endpoint := "s3.amazonaws.com", Access := "AK", Secret := "SK", UseSSL := true }
     "strconv.Atoi: parsing \"abc\": invalid syntax"
     (by decide) rfl (by decide) rfl rfl⟩

/-- C10: a non-empty server option starting with neither "http://" nor
"https://" makes storage-client construction fail with the Invalid-server
error and the invocation terminate before the plugin executes; an empty
server option defaults the endpoint to "s3.amazonaws.com" with SSL
enabled (given credentials are present). -/
theorem s3Storage_server_validation (c : Invocation) :
    (cString c "server" ≠ "" →
      hasPrefix (cString c "server") "http://" = false →
      hasPrefix (cString c "server") "https://" = false →
      s3Storage c =
        .error ("Invalid server " ++ cString c "server" ++ ". Needs to be a HTTP URI") ∧
      (run c).failed = true)
    ∧ (cString c "server" = "" →
      cString c "access-key" ≠ "" → cString c "secret-key" ≠ "" →
      s3Storage c = .ok { Endpoint := "s3.amazonaws.com", Access := cString c "access-key",
                          Secret := cString c "secret-key", UseSSL := true }) := by
  constructor
  · intro h1 h2 h3
    have hsrv : (cString c "server").isEmpty = false := isEmpty_false_of_ne _ h1
    have herr : s3Storage c =
        .error ("Invalid server " ++ cString c "server" ++ ". Needs to be a HTTP URI") := by
      simp [s3Storage, hsrv, h2, h3]
    exact ⟨herr, run_failed_of_s3_error c _ herr⟩
  · intro h1 h2 h3
    simp [s3Storage, s3Creds, h1, empty_string_isEmpty,
      isEmpty_false_of_ne _ h2, isEmpty_false_of_ne _ h3]

/-- C10 witness: the rejection at server "ftp://files.example.com" and the
default endpoint at an empty server option. -/
theorem s3Storage_server_validation_witness :
    (cString cfgBadServer "server" ≠ "" ∧
      s3Storage cfgBadServer =
        .error "Invalid server ftp://files.example.com. Needs to be a HTTP URI" ∧
      (run cfgBadServer).failed = true) ∧
    s3Storage cfgNoServer =
      .ok { Endpoint := "s3.amazonaws.com", Access := "AK", Secret := "SK", UseSSL := true } :=
  ⟨⟨by decide, (s3Storage_server_validation cfgBadServer).1 (by decide) (by decide) (by decide)⟩,
   (s3Storage_server_validation cfgNoServer).2 rfl (by decide) (by decide)⟩

end DroneS3Cache
